import Mathlib

/-!
Shallow embedding of the sundial calculator (analemmatic.py, horiz.py,
equation_of_time.py, sun_declination.py) over the real numbers, together
with theorems checking the natural-language specification against it.

Numpy's floating-point trigonometry is embedded as real-valued
trigonometry; `np.arctan2 y x` is embedded as the complex argument of
`x + y*i` (same convention, range `(-π, π]`), and the float `%` operator
(sign of the divisor) as `fmod x y = x - y * ⌊x / y⌋`.
-/

open Real

namespace Sundials

open scoped Classical

/-- Embedding of `np.arctan2`: the argument of the point `(x, y)`,
in `(-π, π]`, with `atan2 0 0 = 0` as in numpy. -/
noncomputable def atan2 (y x : ℝ) : ℝ := Complex.arg ⟨x, y⟩

/-- Embedding of `np.deg2rad`. -/
noncomputable def deg2rad (x : ℝ) : ℝ := x * π / 180

/-- Embedding of the python float `%` operator (result has the sign of the
divisor; for `0 < y` it lies in `[0, y)`). -/
noncomputable def fmod (x y : ℝ) : ℝ := x - y * ⌊x / y⌋

/-- Named tuple `Location` defined identically at the top of both
`horiz.py` and `analemmatic.py`: latitude and longitude in degrees,
timezone in hours, and a display name. -/
structure Location where
  latitude : ℝ
  longitude : ℝ
  timezone : ℝ
  location : String

namespace SunDeclination

/-- Constant from `sun_declination.py`. -/
noncomputable def DAYS_PER_TROPICAL_YEAR : ℝ := 365.242

/-- Constant from `sun_declination.py`: tilt of the earth's axis in radians. -/
noncomputable def SUN_OBLIQUITY : ℝ := 0.40910

/-- Source `sun_declination_simple` from `sun_declination.py`:
`-SUN_OBLIQUITY * np.cos((2 * np.pi / DAYS_PER_TROPICAL_YEAR) * day_number_n)`. -/
noncomputable def sun_declination_simple (day_number_n : ℝ) : ℝ :=
  -SUN_OBLIQUITY * Real.cos ((2 * π / DAYS_PER_TROPICAL_YEAR) * day_number_n)

/-- Source `sun_declination = sun_declination_simple` in `sun_declination.py`. -/
noncomputable def sun_declination : ℝ → ℝ := sun_declination_simple

end SunDeclination

namespace EquationOfTime

/-- Named tuple `Location` from `equation_of_time.py` (only latitude and
longitude; no timezone field there). -/
structure Location where
  latitude : ℝ
  longitude : ℝ

/-- Constant from `equation_of_time.py`. -/
noncomputable def DAYS_PER_TROPICAL_YEAR : ℝ := 365.242

/-- Constant from `equation_of_time.py`. -/
noncomputable def SUN_ECCENTRICITY : ℝ := 0.01671

/-- Constant from `equation_of_time.py`: angle from the vernal equinox to
the periapsis in the plane of the ecliptic. -/
noncomputable def SUN_ANGLE_OFFSET : ℝ := 4.9358

/-- Constant from `equation_of_time.py`. -/
noncomputable def SUN_OBLIQUITY : ℝ := 0.40910

/-- Source `longitude_offset` from `equation_of_time.py`: the longitude reduced
by the python `%` operator modulo `360/24` degrees, then shifted down by
`360/24` when above half of it. -/
noncomputable def longitude_offset (location : Location) : ℝ :=
  let longitude := location.longitude
  let longitude_per_hour : ℝ := 360 / 24
  let lo := fmod longitude longitude_per_hour
  if lo > longitude_per_hour / 2 then lo - longitude_per_hour else lo

/-- Source `longitude_offset_min` from `equation_of_time.py`:
`longitude_offset(location) * (24 * 60 / 360)`. -/
noncomputable def longitude_offset_min (location : Location) : ℝ :=
  longitude_offset location * (24 * 60 / 360)

/-- Source `mean_anomaly` from `equation_of_time.py`. -/
noncomputable def mean_anomaly (day_number_n : ℝ) : ℝ :=
  day_number_n * (2 * π / DAYS_PER_TROPICAL_YEAR)

/-- The closure `eccentric_anomaly_function` inside `eccentric_anomaly`
in `equation_of_time.py`, as a function of the eccentric-anomaly unknown
with the target mean anomaly as a parameter:
`E - SUN_ECCENTRICITY * sin E - M`; here written without the subtracted
constant, as `E - SUN_ECCENTRICITY * sin E`. -/
noncomputable def eccentric_anomaly_function (E : ℝ) : ℝ :=
  E - SUN_ECCENTRICITY * Real.sin E

theorem eccentric_anomaly_function_surjective :
    Function.Surjective eccentric_anomaly_function := by
  have hcont : Continuous eccentric_anomaly_function := by
    unfold eccentric_anomaly_function
    exact continuous_id.sub (continuous_const.mul Real.continuous_sin)
  have he : (0 : ℝ) < SUN_ECCENTRICITY := by norm_num [SUN_ECCENTRICITY]
  refine hcont.surjective ?_ ?_
  · refine Filter.tendsto_atTop_mono (fun E => ?_)
      (Filter.tendsto_atTop_add_const_right _ (-SUN_ECCENTRICITY) Filter.tendsto_id)
    have h1 : Real.sin E ≤ 1 := Real.sin_le_one E
    simp only [eccentric_anomaly_function, Filter.tendsto_id, id]
    nlinarith
  · refine Filter.tendsto_atBot_mono (fun E => ?_)
      (Filter.tendsto_atBot_add_const_right _ SUN_ECCENTRICITY Filter.tendsto_id)
    have h1 : -1 ≤ Real.sin E := Real.neg_one_le_sin E
    simp only [eccentric_anomaly_function, Filter.tendsto_id, id]
    nlinarith

/-- Source `eccentric_anomaly` from `equation_of_time.py`. The source solves
Kepler's equation `E - e*sin(E) - M = 0` numerically with
`scipy.optimize.fsolve` (an external library); the solver is embedded as
the exact root of Kepler's equation, which exists because
`eccentric_anomaly_function` is continuous and unbounded in both
directions. -/
noncomputable def eccentric_anomaly (mean_anomaly_value : ℝ) : ℝ :=
  (eccentric_anomaly_function_surjective mean_anomaly_value).choose

theorem eccentric_anomaly_spec (M : ℝ) :
    eccentric_anomaly M - SUN_ECCENTRICITY * Real.sin (eccentric_anomaly M) = M :=
  (eccentric_anomaly_function_surjective M).choose_spec

/-- Source `true_anomaly` from `equation_of_time.py`:
`2 * arctan2(sin(E/2) * sqrt((1+e)/(1-e)), cos(E/2))`. -/
noncomputable def true_anomaly (eccentric_anomaly_value : ℝ) : ℝ :=
  2 * atan2 (Real.sin (eccentric_anomaly_value / 2) *
      Real.sqrt ((1 + SUN_ECCENTRICITY) / (1 - SUN_ECCENTRICITY)))
    (Real.cos (eccentric_anomaly_value / 2))

/-- Source `right_ascension` from `equation_of_time.py`:
`arctan2(sin(sun_angle) * cos(SUN_OBLIQUITY), cos(sun_angle))`. -/
noncomputable def right_ascension (sun_angle : ℝ) : ℝ :=
  atan2 (Real.sin sun_angle * Real.cos SUN_OBLIQUITY) (Real.cos sun_angle)

/-- The raw (unnormalized) angle
`eot = mean_anomaly_value + SUN_ANGLE_OFFSET - right_ascension_value`
computed inside `equation_of_time_accurate` in `equation_of_time.py`. -/
noncomputable def eot_raw (day_number_n : ℝ) : ℝ :=
  mean_anomaly day_number_n + SUN_ANGLE_OFFSET -
    right_ascension (true_anomaly (eccentric_anomaly (mean_anomaly day_number_n)) +
      SUN_ANGLE_OFFSET)

/-- The normalization step `eot = (eot + np.pi) % (2 * np.pi) - np.pi`
inside `equation_of_time_accurate`. -/
noncomputable def eot_normalized (day_number_n : ℝ) : ℝ :=
  fmod (eot_raw day_number_n + π) (2 * π) - π

/-- Source `equation_of_time_accurate` from `equation_of_time.py`: the normalized
angle scaled to minutes by `24 * 60 / 2 / np.pi`. -/
noncomputable def equation_of_time_accurate (day_number_n : ℝ) : ℝ :=
  eot_normalized day_number_n * (24 * 60 / 2 / π)

end EquationOfTime

namespace Horiz

/-- Source `equatorial_hour_angle` from `horiz.py`:
`(hour - timezone) * 2 * np.pi / 24 + deg2rad(longitude)`. -/
noncomputable def equatorial_hour_angle (hour : ℝ) (location : Location) : ℝ :=
  (hour - location.timezone) * 2 * π / 24 + deg2rad location.longitude

/-- Source `horiz_hour_angle` from `horiz.py`: projects the equatorial angle
(relative to solar noon) onto the horizontal dial plane via
`arctan2(sin Δ, cos Δ / sin(deg2rad latitude))`, then converts to the
mathematical convention via `π/2 - angle`. -/
noncomputable def horiz_hour_angle (hour : ℝ) (location : Location) : ℝ :=
  let equatorial_angle := equatorial_hour_angle hour location
  let equatorial_angle_from_solar_noon := equatorial_angle - π
  let a_x := Real.cos equatorial_angle_from_solar_noon
  let a_y := Real.sin equatorial_angle_from_solar_noon
  let horiz_angle_from_solar_noon :=
    atan2 a_y (a_x / Real.sin (deg2rad location.latitude))
  π / 2 - horiz_angle_from_solar_noon

end Horiz

namespace Analemmatic

/-- Source `equatorial_hour_angle` from `analemmatic.py` (textually identical to
the one in `horiz.py`). -/
noncomputable def equatorial_hour_angle (hour : ℝ) (location : Location) : ℝ :=
  (hour - location.timezone) * 2 * π / 24 + deg2rad location.longitude

/-- Source `rotated_equatorial_hour_angle` from `analemmatic.py`:
`π/2 - (equatorial_angle - π)`. -/
noncomputable def rotated_equatorial_hour_angle (hour : ℝ) (location : Location) : ℝ :=
  let equatorial_angle := equatorial_hour_angle hour location
  let equatorial_angle_from_solar_noon := equatorial_angle - π
  π / 2 - equatorial_angle_from_solar_noon

/-- Source `analemmatic_horiz_hour_angle` from `analemmatic.py`: like the
horizontal dial angle but with `arctan2(sin Δ, cos Δ * sin(deg2rad latitude))`. -/
noncomputable def analemmatic_horiz_hour_angle (hour : ℝ) (location : Location) : ℝ :=
  let equatorial_angle := equatorial_hour_angle hour location
  let equatorial_angle_from_solar_noon := equatorial_angle - π
  let a_x := Real.cos equatorial_angle_from_solar_noon
  let a_y := Real.sin equatorial_angle_from_solar_noon
  let horiz_angle_from_solar_noon :=
    atan2 a_y (a_x * Real.sin (deg2rad location.latitude))
  π / 2 - horiz_angle_from_solar_noon

/-- Source `analemmatic_horiz_hour_position` from `analemmatic.py`:
`(cos θ, sin θ * sin(deg2rad latitude))` for the rotated equatorial angle `θ`. -/
noncomputable def analemmatic_horiz_hour_position (hour : ℝ) (location : Location) :
    ℝ × ℝ :=
  let rotated_equatorial_angle := rotated_equatorial_hour_angle hour location
  let a_x := Real.cos rotated_equatorial_angle
  let a_y := Real.sin rotated_equatorial_angle * Real.sin (deg2rad location.latitude)
  (a_x, a_y)

open SunDeclination in
/-- The per-month slope sign computed in `main` of `analemmatic.py`
before the hemisphere test:
`1 if sun_declination(day_number + 0.001) >= sun_declination(day_number) else -1`. -/
noncomputable def month_start_slope (day_number : ℝ) : ℤ :=
  if sun_declination (day_number + 0.001) ≥ sun_declination day_number then 1 else -1

open SunDeclination in
/-- The body of the date-scale loop in `main` of `analemmatic.py` for one
month: the slope sign is taken from the declination values as computed
(before any hemisphere negation), then for southern latitudes the
declination is negated before the y-position `tan(sun_angle) * cos(deg2rad
latitude)` is computed. Returns the pair (slope, y). -/
noncomputable def date_scale_entry (latitude day_number : ℝ) : ℤ × ℝ :=
  let sun_angle := sun_declination day_number
  let sun_angle2 := sun_declination (day_number + 0.001)
  let month_start_slope : ℤ := if sun_angle2 ≥ sun_angle then 1 else -1
  let sun_angle := if latitude < 0 then -sun_angle else sun_angle
  (month_start_slope, Real.tan sun_angle * Real.cos (deg2rad latitude))

open SunDeclination in
/-- Written from the spec sentence behind claim C1 (not from the source),
for comparison with `date_scale_entry`: the slope sign as it would be if
the declination values were negated before the comparison, as they are
before the y computation for southern latitudes. -/
noncomputable def month_start_slope_negated (day_number : ℝ) : ℤ :=
  if -sun_declination (day_number + 0.001) ≥ -sun_declination day_number then 1 else -1

end Analemmatic

/-- The hour-numeral formatting `"%d" % ((hour - 1) % 12 + 1)` appearing
identically in `main` of both `analemmatic.py` and `horiz.py`. -/
def hour_text (hour : ℤ) : String := toString ((hour - 1) % 12 + 1)

/-! ### Facts about the embedded float modulo operator -/

theorem fmod_nonneg_of_pos (x y : ℝ) (hy : 0 < y) : 0 ≤ fmod x y := by
  have h := Int.floor_le (x / y)
  have h2 : y * ((⌊x / y⌋ : ℤ) : ℝ) ≤ y * (x / y) :=
    mul_le_mul_of_nonneg_left h hy.le
  have h3 : y * (x / y) = x := by field_simp
  unfold fmod
  linarith

theorem fmod_lt_of_pos (x y : ℝ) (hy : 0 < y) : fmod x y < y := by
  have h := Int.sub_one_lt_floor (x / y)
  have h2 : y * (x / y - 1) < y * ((⌊x / y⌋ : ℤ) : ℝ) :=
    mul_lt_mul_of_pos_left h hy
  have h3 : y * (x / y) = x := by field_simp
  have h4 : y * (x / y - 1) = y * (x / y) - y := by ring
  unfold fmod
  linarith

theorem fmod_add_int_mul (x y : ℝ) (n : ℤ) (hy : y ≠ 0) :
    fmod (x + y * n) y = fmod x y := by
  unfold fmod
  have h : (x + y * n) / y = x / y + n := by
    field_simp
    ring
  rw [h, Int.floor_add_int]
  push_cast
  ring

theorem fmod_eq_self (x y : ℝ) (h0 : 0 ≤ x) (h1 : x < y) : fmod x y = x := by
  have hy : 0 < y := lt_of_le_of_lt h0 h1
  have hfl : ⌊x / y⌋ = 0 := by
    rw [Int.floor_eq_zero_iff]
    exact ⟨div_nonneg h0 hy.le, (div_lt_one hy).mpr h1⟩
  unfold fmod
  rw [hfl]
  simp

/-! ### Claim C2: residual of the Kepler-equation solver -/

namespace EquationOfTime

/-- C2: for every day number `d`, the value `E` returned by
`eccentric_anomaly(mean_anomaly(d))` satisfies
`|E - 0.01671*sin(E) - mean_anomaly(d)| < 1e-9`. -/
theorem kepler_residual_lt (d : ℝ) :
    |eccentric_anomaly (mean_anomaly d) -
        SUN_ECCENTRICITY * Real.sin (eccentric_anomaly (mean_anomaly d)) -
        mean_anomaly d| < 1e-9 := by
  rw [eccentric_anomaly_spec (mean_anomaly d), sub_self, abs_zero]
  norm_num

/-! ### Claim C5: range of the longitude offset -/

/-- C5 counterexample: at longitude `7.5` the longitude offset is exactly
`7.5`, which is not inside the claimed half-open interval `[-7.5, 7.5)`. -/
theorem longitude_offset_at_seven_point_five :
    longitude_offset ⟨0, 7.5⟩ = 7.5 ∧ ¬ longitude_offset ⟨0, 7.5⟩ < 7.5 := by
  have h : longitude_offset ⟨0, 7.5⟩ = 7.5 := by
    unfold longitude_offset
    dsimp only
    rw [fmod_eq_self 7.5 (360 / 24) (by norm_num) (by norm_num)]
    norm_num
  exact ⟨h, by rw [h]; exact lt_irrefl _⟩

/-- C5 amended: for every location, `longitude_offset` lies in the
half-open interval `(-7.5, 7.5]` (closed on the right, not on the left),
and `longitude_offset_min` is `longitude_offset` times 4 min/degree. -/
theorem longitude_offset_range_and_min (location : Location) :
    (-7.5 < longitude_offset location ∧ longitude_offset location ≤ 7.5) ∧
    longitude_offset_min location = longitude_offset location * 4 := by
  constructor
  · unfold longitude_offset
    dsimp only
    have h0 : 0 ≤ fmod location.longitude (360 / 24) :=
      fmod_nonneg_of_pos _ _ (by norm_num)
    have h1 : fmod location.longitude (360 / 24) < 360 / 24 :=
      fmod_lt_of_pos _ _ (by norm_num)
    split_ifs with h
    · constructor <;> linarith
    · constructor <;> linarith
  · unfold longitude_offset_min
    norm_num

end EquationOfTime

/-! ### Claim C6: analemmatic positions lie on the unit ellipse -/

namespace Analemmatic

/-- C6: for every hour and location with `sin(deg2rad(latitude)) ≠ 0`, the
analemmatic position `(x, y)` satisfies
`x^2 + (y / sin(deg2rad(latitude)))^2 = 1`. -/
theorem position_on_unit_ellipse (hour : ℝ) (location : Location)
    (h : Real.sin (deg2rad location.latitude) ≠ 0) :
    (analemmatic_horiz_hour_position hour location).1 ^ 2 +
      ((analemmatic_horiz_hour_position hour location).2 /
        Real.sin (deg2rad location.latitude)) ^ 2 = 1 := by
  unfold analemmatic_horiz_hour_position
  dsimp only
  rw [mul_div_cancel_right₀ _ h]
  exact Real.cos_sq_add_sin_sq _

theorem position_on_unit_ellipse_witness :
    Real.sin (deg2rad (30 : ℝ)) ≠ 0 ∧
    (analemmatic_horiz_hour_position 9 ⟨30, 0, 0, ""⟩).1 ^ 2 +
      ((analemmatic_horiz_hour_position 9 ⟨30, 0, 0, ""⟩).2 /
        Real.sin (deg2rad (30 : ℝ))) ^ 2 = 1 := by
  have h30 : deg2rad (30 : ℝ) = π / 6 := by unfold deg2rad; ring
  have h : Real.sin (deg2rad (30 : ℝ)) ≠ 0 := by
    rw [h30, Real.sin_pi_div_six]; norm_num
  exact ⟨h, position_on_unit_ellipse 9 ⟨30, 0, 0, ""⟩ h⟩

end Analemmatic

/-! ### Claim C7: symmetry and extremes of the sun declination -/

namespace SunDeclination

/-- C7 counterexample: the declination is not antisymmetric about the
solstice; already at `d = 0` it takes the value `-SUN_OBLIQUITY` on both
sides of the claimed identity `sun_declination(d) = -sun_declination(-d)`. -/
theorem not_antisymmetric_at_zero :
    ¬ sun_declination 0 = -sun_declination (-0) := by
  unfold sun_declination sun_declination_simple
  norm_num [SUN_OBLIQUITY]

/-- C7 amended: `sun_declination` is an even function of the day number
(symmetric, not antisymmetric, about the solstice), and attains its
extreme values `-SUN_OBLIQUITY` at `d = 0` and `+SUN_OBLIQUITY` at
`d = DAYS_PER_TROPICAL_YEAR / 2`, all its values lying between the two. -/
theorem even_and_extremes :
    (∀ d : ℝ, sun_declination (-d) = sun_declination d) ∧
    sun_declination 0 = -SUN_OBLIQUITY ∧
    sun_declination (DAYS_PER_TROPICAL_YEAR / 2) = SUN_OBLIQUITY ∧
    ∀ d : ℝ, -SUN_OBLIQUITY ≤ sun_declination d ∧
      sun_declination d ≤ SUN_OBLIQUITY := by
  unfold sun_declination sun_declination_simple
  refine ⟨fun d => ?_, by norm_num, ?_, fun d => ?_⟩
  · rw [mul_neg, Real.cos_neg]
  · have harg : 2 * π / DAYS_PER_TROPICAL_YEAR * (DAYS_PER_TROPICAL_YEAR / 2) = π := by
      have hY : (DAYS_PER_TROPICAL_YEAR : ℝ) ≠ 0 := by
        norm_num [DAYS_PER_TROPICAL_YEAR]
      field_simp
    rw [harg, Real.cos_pi]
    ring
  · have h1 := Real.neg_one_le_cos (2 * π / DAYS_PER_TROPICAL_YEAR * d)
    have h2 := Real.cos_le_one (2 * π / DAYS_PER_TROPICAL_YEAR * d)
    have hO : (0 : ℝ) < SUN_OBLIQUITY := by norm_num [SUN_OBLIQUITY]
    constructor <;> nlinarith

end SunDeclination

/-! ### Claim C9: hour-numeral formatting -/

/-- C9: the hour-numeral text is `((hour - 1) mod 12) + 1` rendered as a
decimal string; hour 13 gives "1", hour 0 gives "12", hour 24 gives "12". -/
theorem hour_text_spec :
    hour_text 13 = "1" ∧ hour_text 0 = "12" ∧ hour_text 24 = "12" ∧
    ∀ hour : ℤ, hour_text hour = toString ((hour - 1) % 12 + 1) :=
  ⟨rfl, rfl, rfl, fun _ => rfl⟩

/-! ### Basic values of the embedded arctan2 -/

theorem complex_mk_eq_ofReal (x : ℝ) : (⟨x, 0⟩ : ℂ) = (x : ℂ) := by
  apply Complex.ext <;> simp

theorem atan2_zero_nonneg (x : ℝ) (hx : 0 ≤ x) : atan2 0 x = 0 := by
  unfold atan2
  rw [complex_mk_eq_ofReal]
  exact Complex.arg_ofReal_of_nonneg hx

theorem atan2_zero_neg (x : ℝ) (hx : x < 0) : atan2 0 x = π := by
  unfold atan2
  rw [complex_mk_eq_ofReal]
  exact Complex.arg_ofReal_of_neg hx

/-! ### Helper lemmas for the equation-of-time normalization (claim C3) -/

/-- A real whose cosine exceeds `cos δ` (for `0 < δ ≤ π`) is within `δ`
of an integer multiple of `2π`. -/
theorem exists_near_two_pi_of_cos_lt (x δ : ℝ) (h0 : 0 < δ) (hδπ : δ ≤ π)
    (h : Real.cos δ < Real.cos x) : ∃ m : ℤ, |x - 2 * π * m| < δ := by
  refine ⟨round (x / (2 * π)), ?_⟩
  have hπpos := Real.pi_pos
  have h2π : (0 : ℝ) < 2 * π := by linarith
  have h1 : |x / (2 * π) - round (x / (2 * π))| ≤ 1 / 2 := abs_sub_round _
  have heq : x - 2 * π * round (x / (2 * π)) =
      (x / (2 * π) - round (x / (2 * π))) * (2 * π) := by
    field_simp
  have h2 : |x - 2 * π * round (x / (2 * π))| ≤ π := by
    rw [heq, abs_mul, abs_of_pos h2π]
    nlinarith [abs_nonneg (x / (2 * π) - (round (x / (2 * π)) : ℝ))]
  have hcos_eq : Real.cos (x - 2 * π * round (x / (2 * π))) = Real.cos x := by
    rw [show x - 2 * π * (round (x / (2 * π)) : ℝ) =
        x - (round (x / (2 * π)) : ℝ) * (2 * π) by ring]
    exact Real.cos_sub_int_mul_two_pi x _
  by_contra hcon
  push_neg at hcon
  have habs : Real.cos |x - 2 * π * round (x / (2 * π))| ≤ Real.cos δ :=
    Real.cos_le_cos_of_nonneg_of_le_pi h0.le h2 hcon
  rw [Real.cos_abs, hcos_eq] at habs
  linarith

theorem trig_arg_ne_zero (θ c : ℝ) (hc : 0 < c) :
    (⟨Real.cos θ, Real.sin θ * c⟩ : ℂ) ≠ 0 := by
  intro h
  have hre : Real.cos θ = 0 := by
    have := congrArg Complex.re h
    simpa using this
  have him : Real.sin θ * c = 0 := by
    have := congrArg Complex.im h
    simpa using this
  have hsin : Real.sin θ = 0 := by
    rcases mul_eq_zero.mp him with h' | h'
    · exact h'
    · exact absurd h' hc.ne'
  have hone := Real.sin_sq_add_cos_sq θ
  rw [hre, hsin] at hone
  norm_num at hone

/-- Scaling the sine component of a point on the unit circle by a factor
`0 < c ≤ 1` moves its argument from `θ` by less than a quarter turn, with
`cos` of the discrepancy at least `c`. -/
theorem cos_atan2_scale_sub_ge (θ c : ℝ) (hc : 0 < c) (hc1 : c ≤ 1) :
    c ≤ Real.cos (atan2 (Real.sin θ * c) (Real.cos θ) - θ) := by
  have hzne : (⟨Real.cos θ, Real.sin θ * c⟩ : ℂ) ≠ 0 := trig_arg_ne_zero θ c hc
  have habspos : 0 < Complex.abs (⟨Real.cos θ, Real.sin θ * c⟩ : ℂ) :=
    Complex.abs.pos hzne
  have habsle : Complex.abs (⟨Real.cos θ, Real.sin θ * c⟩ : ℂ) ≤ 1 := by
    rw [Complex.abs_apply, Complex.normSq_mk]
    apply Real.sqrt_le_one.mpr
    nlinarith [Real.sin_sq_add_cos_sq θ,
      mul_nonneg (mul_nonneg (sub_nonneg.mpr hc1) (by linarith : (0:ℝ) ≤ 1 + c))
        (sq_nonneg (Real.sin θ))]
  have hcos : Real.cos (atan2 (Real.sin θ * c) (Real.cos θ) - θ) =
      (Real.cos θ * Real.cos θ + (Real.sin θ * c) * Real.sin θ) /
        Complex.abs (⟨Real.cos θ, Real.sin θ * c⟩ : ℂ) := by
    unfold atan2
    rw [Real.cos_sub, Complex.cos_arg hzne, Complex.sin_arg]
    have hre : (⟨Real.cos θ, Real.sin θ * c⟩ : ℂ).re = Real.cos θ := rfl
    have him : (⟨Real.cos θ, Real.sin θ * c⟩ : ℂ).im = Real.sin θ * c := rfl
    rw [hre, him]
    ring
  have hnum : c ≤ Real.cos θ * Real.cos θ + (Real.sin θ * c) * Real.sin θ := by
    nlinarith [Real.sin_sq_add_cos_sq θ,
      mul_nonneg (sub_nonneg.mpr hc1) (sq_nonneg (Real.cos θ))]
  rw [hcos, le_div_iff₀ habspos]
  nlinarith [mul_le_mul_of_nonneg_left habsle hc.le]

/-- Scaling the sine component of a point on the unit circle by a factor
`c ≥ 1` moves its argument from `θ` by a discrepancy whose `cos` is at
least `1/c`. -/
theorem cos_atan2_scale_sub_ge_inv (θ c : ℝ) (hc : 1 ≤ c) :
    1 / c ≤ Real.cos (atan2 (Real.sin θ * c) (Real.cos θ) - θ) := by
  have hc0 : (0 : ℝ) < c := lt_of_lt_of_le one_pos hc
  have hzne : (⟨Real.cos θ, Real.sin θ * c⟩ : ℂ) ≠ 0 := trig_arg_ne_zero θ c hc0
  have habspos : 0 < Complex.abs (⟨Real.cos θ, Real.sin θ * c⟩ : ℂ) :=
    Complex.abs.pos hzne
  have habsle : Complex.abs (⟨Real.cos θ, Real.sin θ * c⟩ : ℂ) ≤ c := by
    rw [Complex.abs_apply, Complex.normSq_mk]
    have h1 : Real.cos θ * Real.cos θ + (Real.sin θ * c) * (Real.sin θ * c) ≤ c ^ 2 := by
      nlinarith [Real.sin_sq_add_cos_sq θ,
        mul_nonneg (mul_nonneg (sub_nonneg.mpr hc) (by linarith : (0:ℝ) ≤ c + 1))
          (sq_nonneg (Real.cos θ))]
    calc Real.sqrt (Real.cos θ * Real.cos θ + Real.sin θ * c * (Real.sin θ * c)) ≤
        Real.sqrt (c ^ 2) := Real.sqrt_le_sqrt (by nlinarith [h1])
      _ = c := Real.sqrt_sq hc0.le
  have hcos : Real.cos (atan2 (Real.sin θ * c) (Real.cos θ) - θ) =
      (Real.cos θ * Real.cos θ + (Real.sin θ * c) * Real.sin θ) /
        Complex.abs (⟨Real.cos θ, Real.sin θ * c⟩ : ℂ) := by
    unfold atan2
    rw [Real.cos_sub, Complex.cos_arg hzne, Complex.sin_arg]
    have hre : (⟨Real.cos θ, Real.sin θ * c⟩ : ℂ).re = Real.cos θ := rfl
    have him : (⟨Real.cos θ, Real.sin θ * c⟩ : ℂ).im = Real.sin θ * c := rfl
    rw [hre, him]
    ring
  have hnum : 1 ≤ Real.cos θ * Real.cos θ + (Real.sin θ * c) * Real.sin θ := by
    nlinarith [Real.sin_sq_add_cos_sq θ,
      mul_nonneg (sub_nonneg.mpr hc) (sq_nonneg (Real.sin θ))]
  rw [hcos, le_div_iff₀ habspos]
  have h2 : 1 / c * Complex.abs (⟨Real.cos θ, Real.sin θ * c⟩ : ℂ) ≤ 1 := by
    rw [div_mul_eq_mul_div, one_mul, div_le_one hc0]
    exact habsle
  linarith

namespace EquationOfTime

theorem cos_obliquity_pos : 0 < Real.cos SUN_OBLIQUITY := by
  have := Real.pi_gt_d6
  apply Real.cos_pos_of_mem_Ioo
  constructor
  · unfold SUN_OBLIQUITY
    norm_num
    linarith
  · unfold SUN_OBLIQUITY
    norm_num
    linarith

theorem cos_point_two_lt_inv_sqrt :
    Real.cos 0.2 <
      1 / Real.sqrt ((1 + SUN_ECCENTRICITY) / (1 - SUN_ECCENTRICITY)) := by
  have hsle : Real.sqrt ((1 + SUN_ECCENTRICITY) / (1 - SUN_ECCENTRICITY)) ≤ 1.017 := by
    rw [show (1.017 : ℝ) = Real.sqrt (1.017 ^ 2) from (Real.sqrt_sq (by norm_num)).symm]
    apply Real.sqrt_le_sqrt
    unfold SUN_ECCENTRICITY
    rw [div_le_iff₀ (by norm_num)]
    norm_num
  have hspos : 0 < Real.sqrt ((1 + SUN_ECCENTRICITY) / (1 - SUN_ECCENTRICITY)) := by
    apply Real.sqrt_pos.mpr
    unfold SUN_ECCENTRICITY
    norm_num
  have hinv : 1 / (1.017 : ℝ) ≤
      1 / Real.sqrt ((1 + SUN_ECCENTRICITY) / (1 - SUN_ECCENTRICITY)) :=
    one_div_le_one_div_of_le hspos hsle
  have hb := Real.cos_bound (show |(0.2 : ℝ)| ≤ 1 by
    rw [abs_of_pos (by norm_num)]
    norm_num)
  have h1 := (abs_le.mp hb).2
  have h2 : |(0.2 : ℝ)| ^ 4 * (5 / 96) = 1 / 12000 := by
    rw [abs_of_pos (by norm_num)]
    norm_num
  have h4 : (1 : ℝ) - 0.2 ^ 2 / 2 + 1 / 12000 < 1 / 1.017 := by norm_num
  linarith

/-- C3: for every day number `d`, the normalized eot angle computed inside
`equation_of_time_accurate` via `((eot + π) mod 2π) - π` lies in the
half-open interval `(-π, π]`, and the returned value in minutes lies in
`(-720, 720]`.  (In fact the normalized angle always lies in the open
interval `(-0.83, 0.83)`: the raw `eot` angle is never more than `0.83`
radians away from an integer multiple of `2π`.) -/
theorem eot_normalized_range (d : ℝ) :
    (-π < eot_normalized d ∧ eot_normalized d ≤ π) ∧
    (-720 < equation_of_time_accurate d ∧ equation_of_time_accurate d ≤ 720) := by
  have hπ := Real.pi_gt_d6
  have hπpos := Real.pi_pos
  set M := mean_anomaly d with hM
  set E := eccentric_anomaly M with hE
  have hkepler : E - SUN_ECCENTRICITY * Real.sin E = M := by
    have h := eccentric_anomaly_spec M
    rw [← hE] at h
    exact h
  set s : ℝ := Real.sqrt ((1 + SUN_ECCENTRICITY) / (1 - SUN_ECCENTRICITY)) with hs
  have hs1 : 1 ≤ s := by
    rw [hs, show (1 : ℝ) = Real.sqrt 1 from Real.sqrt_one.symm]
    apply Real.sqrt_le_sqrt
    unfold SUN_ECCENTRICITY
    rw [Real.sqrt_one, le_div_iff₀ (by norm_num)]
    norm_num
  set φ : ℝ := atan2 (Real.sin (E / 2) * s) (Real.cos (E / 2)) with hφdef
  have hTA : true_anomaly E = 2 * φ := by
    rw [hφdef, hs]
    rfl
  set θ : ℝ := true_anomaly E + SUN_ANGLE_OFFSET with hθ
  set α : ℝ := atan2 (Real.sin θ * Real.cos SUN_OBLIQUITY) (Real.cos θ) with hαdef
  have hRA : right_ascension θ = α := by
    rw [hαdef]
    rfl
  have hraw : eot_raw d = M + SUN_ANGLE_OFFSET - right_ascension θ := by
    rw [hθ, hE, hM]
    rfl
  -- the half-angle argument is within 0.2 of E/2 modulo 2π
  have hφbound : Real.cos 0.2 < Real.cos (φ - E / 2) := by
    have h1 := cos_atan2_scale_sub_ge_inv (E / 2) s hs1
    rw [← hφdef] at h1
    have h2 : Real.cos 0.2 < 1 / s := by
      rw [hs]
      exact cos_point_two_lt_inv_sqrt
    linarith
  obtain ⟨a, ha⟩ := exists_near_two_pi_of_cos_lt (φ - E / 2) 0.2
    (by norm_num) (by linarith) hφbound
  -- the right ascension is within 0.41 of θ modulo 2π
  have hαbound : Real.cos 0.41 < Real.cos (α - θ) := by
    have h1 := cos_atan2_scale_sub_ge θ (Real.cos SUN_OBLIQUITY)
      cos_obliquity_pos (Real.cos_le_one _)
    rw [← hαdef] at h1
    have h2 : Real.cos 0.41 < Real.cos SUN_OBLIQUITY := by
      apply Real.cos_lt_cos_of_nonneg_of_le_pi
      · unfold SUN_OBLIQUITY
        norm_num
      · linarith
      · unfold SUN_OBLIQUITY
        norm_num
    linarith
  obtain ⟨b, hbd⟩ := exists_near_two_pi_of_cos_lt (α - θ) 0.41
    (by norm_num) (by linarith) hαbound
  -- the raw eot angle is a small quantity w plus a multiple of 2π
  have hw : eot_raw d + π =
      (-(SUN_ECCENTRICITY * Real.sin E) - 2 * (φ - E / 2 - 2 * π * a) -
        (α - θ - 2 * π * b) + π) + 2 * π * ((-(2 * a + b) : ℤ) : ℝ) := by
    rw [hraw, hRA, hθ, hTA, ← hkepler]
    push_cast
    ring
  have hwbound : |(-(SUN_ECCENTRICITY * Real.sin E) - 2 * (φ - E / 2 - 2 * π * a) -
      (α - θ - 2 * π * b))| < 0.83 := by
    have h2 := abs_lt.mp ha
    have h3 := abs_lt.mp hbd
    have h4 := abs_le.mp (Real.abs_sin_le_one E)
    rw [abs_lt]
    unfold SUN_ECCENTRICITY
    constructor <;> linarith [h2.1, h2.2, h3.1, h3.2, h4.1, h4.2]
  have hwlt := abs_lt.mp hwbound
  have h2πne : (2 * π : ℝ) ≠ 0 := by positivity
  have hfmod : fmod (eot_raw d + π) (2 * π) =
      -(SUN_ECCENTRICITY * Real.sin E) - 2 * (φ - E / 2 - 2 * π * a) -
        (α - θ - 2 * π * b) + π := by
    rw [hw, fmod_add_int_mul _ _ _ h2πne]
    apply fmod_eq_self
    · linarith [hwlt.1]
    · linarith [hwlt.2]
  have hnorm : eot_normalized d =
      -(SUN_ECCENTRICITY * Real.sin E) - 2 * (φ - E / 2 - 2 * π * a) -
        (α - θ - 2 * π * b) := by
    unfold eot_normalized
    rw [hfmod]
    ring
  refine ⟨⟨?_, ?_⟩, ?_, ?_⟩
  · rw [hnorm]
    linarith [hwlt.1]
  · rw [hnorm]
    linarith [hwlt.2]
  · unfold equation_of_time_accurate
    rw [hnorm]
    rw [show (-(SUN_ECCENTRICITY * Real.sin E) - 2 * (φ - E / 2 - 2 * π * a) -
        (α - θ - 2 * π * b)) * (24 * 60 / 2 / π) =
        720 * (-(SUN_ECCENTRICITY * Real.sin E) - 2 * (φ - E / 2 - 2 * π * a) -
          (α - θ - 2 * π * b)) / π by ring]
    rw [lt_div_iff₀ hπpos]
    linarith [hwlt.1]
  · unfold equation_of_time_accurate
    rw [hnorm]
    rw [show (-(SUN_ECCENTRICITY * Real.sin E) - 2 * (φ - E / 2 - 2 * π * a) -
        (α - θ - 2 * π * b)) * (24 * 60 / 2 / π) =
        720 * (-(SUN_ECCENTRICITY * Real.sin E) - 2 * (φ - E / 2 - 2 * π * a) -
          (α - θ - 2 * π * b)) / π by ring]
    rw [div_le_iff₀ hπpos]
    linarith [hwlt.2]

end EquationOfTime

/-! ### Claim C4: both dial angles at solar noon -/

/-- C4 counterexample: at the southern-hemisphere location with latitude
`-30`, longitude `0` and timezone `0` (timezone matching longitude
exactly, latitude nonzero), `horiz_hour_angle 12` is `-π/2`, not `π/2`:
the claim fails for southern latitudes before the hemisphere rotation. -/
theorem noon_angle_southern_counterexample :
    deg2rad ((⟨-30, 0, 0, ""⟩ : Location).longitude) =
      (⟨-30, 0, 0, ""⟩ : Location).timezone * 2 * π / 24 ∧
    (⟨-30, 0, 0, ""⟩ : Location).latitude ≠ 0 ∧
    Horiz.horiz_hour_angle 12 ⟨-30, 0, 0, ""⟩ ≠ π / 2 := by
  refine ⟨by unfold deg2rad; dsimp only; ring, by norm_num, ?_⟩
  have heq : Horiz.equatorial_hour_angle 12 ⟨-30, 0, 0, ""⟩ = π := by
    unfold Horiz.equatorial_hour_angle deg2rad
    dsimp only
    ring
  have hsin : Real.sin (deg2rad ((⟨-30, 0, 0, ""⟩ : Location).latitude)) = -(1 / 2) := by
    have hlat : deg2rad ((⟨-30, 0, 0, ""⟩ : Location).latitude) = -(π / 6) := by
      unfold deg2rad; dsimp only; ring
    rw [hlat, Real.sin_neg, Real.sin_pi_div_six]
  unfold Horiz.horiz_hour_angle
  rw [heq]
  dsimp only
  rw [sub_self, Real.cos_zero, Real.sin_zero, hsin]
  have hneg : (1 : ℝ) / -(1 / 2) = -2 := by norm_num
  rw [hneg, atan2_zero_neg (-2) (by norm_num)]
  intro hcontra
  have := Real.pi_pos
  linarith

/-- C4 amended: at hour 12, at a location whose timezone matches its
longitude exactly, both `horiz_hour_angle` and
`analemmatic_horiz_hour_angle` (before any hemisphere rotation) equal
`π/2` when the latitude has positive sine (northern hemisphere), and
equal `-π/2` when the latitude has negative sine (southern hemisphere;
the hemisphere rotation of `main` then adds `π`). -/
theorem noon_angle_hemisphere_sign (location : Location)
    (h1 : deg2rad location.longitude = location.timezone * 2 * π / 24) :
    (0 < Real.sin (deg2rad location.latitude) →
      Horiz.horiz_hour_angle 12 location = π / 2 ∧
      Analemmatic.analemmatic_horiz_hour_angle 12 location = π / 2) ∧
    (Real.sin (deg2rad location.latitude) < 0 →
      Horiz.horiz_hour_angle 12 location = -(π / 2) ∧
      Analemmatic.analemmatic_horiz_hour_angle 12 location = -(π / 2)) := by
  have heq : Horiz.equatorial_hour_angle 12 location = π := by
    unfold Horiz.equatorial_hour_angle
    rw [h1]
    ring
  have heq' : Analemmatic.equatorial_hour_angle 12 location = π := heq
  constructor
  · intro h2
    constructor
    · unfold Horiz.horiz_hour_angle
      rw [heq]
      dsimp only
      rw [sub_self, Real.cos_zero, Real.sin_zero]
      rw [atan2_zero_nonneg _ (one_div_nonneg.mpr h2.le)]
      ring
    · unfold Analemmatic.analemmatic_horiz_hour_angle
      rw [heq']
      dsimp only
      rw [sub_self, Real.cos_zero, Real.sin_zero, one_mul]
      rw [atan2_zero_nonneg _ h2.le]
      ring
  · intro h2
    constructor
    · unfold Horiz.horiz_hour_angle
      rw [heq]
      dsimp only
      rw [sub_self, Real.cos_zero, Real.sin_zero]
      rw [atan2_zero_neg _ (one_div_neg.mpr h2)]
      ring
    · unfold Analemmatic.analemmatic_horiz_hour_angle
      rw [heq']
      dsimp only
      rw [sub_self, Real.cos_zero, Real.sin_zero, one_mul]
      rw [atan2_zero_neg _ h2]
      ring

theorem noon_angle_hemisphere_sign_witness :
    (deg2rad ((⟨-30, 0, 0, ""⟩ : Location).longitude) =
        (⟨-30, 0, 0, ""⟩ : Location).timezone * 2 * π / 24 ∧
      Real.sin (deg2rad ((⟨-30, 0, 0, ""⟩ : Location).latitude)) < 0) ∧
    Horiz.horiz_hour_angle 12 ⟨-30, 0, 0, ""⟩ = -(π / 2) ∧
    Analemmatic.analemmatic_horiz_hour_angle 12 ⟨-30, 0, 0, ""⟩ = -(π / 2) := by
  have ha : deg2rad ((⟨-30, 0, 0, ""⟩ : Location).longitude) =
      (⟨-30, 0, 0, ""⟩ : Location).timezone * 2 * π / 24 := by
    unfold deg2rad; dsimp only; ring
  have hb : Real.sin (deg2rad ((⟨-30, 0, 0, ""⟩ : Location).latitude)) < 0 := by
    have hlat : deg2rad ((⟨-30, 0, 0, ""⟩ : Location).latitude) = -(π / 6) := by
      unfold deg2rad; dsimp only; ring
    rw [hlat, Real.sin_neg, Real.sin_pi_div_six]
    norm_num
  exact ⟨⟨ha, hb⟩, (noon_angle_hemisphere_sign ⟨-30, 0, 0, ""⟩ ha).2 hb⟩

/-! ### Claim C8: behaviour at degenerate latitudes -/

/-- C8 counterexample: at the unsupported configuration latitude `0`
(with hour 12, longitude 0, timezone 0) the analemmatic operations do not
signal any failure; they silently return the ordinary values `(0, 0)` and
`π/2`. -/
theorem degenerate_latitude_silent_value :
    Analemmatic.analemmatic_horiz_hour_position 12 ⟨0, 0, 0, ""⟩ = (0, 0) ∧
    Analemmatic.analemmatic_horiz_hour_angle 12 ⟨0, 0, 0, ""⟩ = π / 2 := by
  have heq : Analemmatic.equatorial_hour_angle 12 ⟨0, 0, 0, ""⟩ = π := by
    unfold Analemmatic.equatorial_hour_angle deg2rad
    dsimp only
    ring
  have hlat : Real.sin (deg2rad ((⟨0, 0, 0, ""⟩ : Location).latitude)) = 0 := by
    have h0 : deg2rad ((⟨0, 0, 0, ""⟩ : Location).latitude) = 0 := by
      unfold deg2rad; dsimp only; ring
    rw [h0, Real.sin_zero]
  constructor
  · unfold Analemmatic.analemmatic_horiz_hour_position
      Analemmatic.rotated_equatorial_hour_angle
    rw [heq]
    dsimp only
    rw [hlat, sub_self, sub_zero, Real.cos_pi_div_two, mul_zero]
  · unfold Analemmatic.analemmatic_horiz_hour_angle
    rw [heq]
    dsimp only
    rw [sub_self, Real.cos_zero, Real.sin_zero, hlat, mul_zero]
    rw [atan2_zero_nonneg 0 le_rfl]
    ring

/-- C8 amended: the dial operations are total and signal nothing at the
degenerate latitudes; at latitude 0 every analemmatic dial position is
silently returned with `y = 0` (the ellipse collapsed onto the x-axis). -/
theorem position_y_zero_of_latitude_zero (hour : ℝ) (location : Location)
    (h : location.latitude = 0) :
    (Analemmatic.analemmatic_horiz_hour_position hour location).2 = 0 := by
  unfold Analemmatic.analemmatic_horiz_hour_position
  dsimp only
  rw [h]
  have h0 : deg2rad 0 = 0 := by unfold deg2rad; ring
  rw [h0, Real.sin_zero, mul_zero]

theorem position_y_zero_of_latitude_zero_witness :
    (⟨0, 0, 0, ""⟩ : Location).latitude = 0 ∧
    (Analemmatic.analemmatic_horiz_hour_position 12 ⟨0, 0, 0, ""⟩).2 = 0 :=
  ⟨rfl, position_y_zero_of_latitude_zero 12 ⟨0, 0, 0, ""⟩ rfl⟩

/-! ### Claim C1: date-scale slope sign in the southern hemisphere -/

namespace Analemmatic

open SunDeclination

theorem sun_declination_11_strict_mono :
    sun_declination 11 < sun_declination (11 + 0.001) := by
  unfold sun_declination sun_declination_simple DAYS_PER_TROPICAL_YEAR SUN_OBLIQUITY
  have hπ := Real.pi_pos
  have hc : Real.cos (2 * π / 365.242 * (11 + 0.001)) <
      Real.cos (2 * π / 365.242 * 11) := by
    apply Real.cos_lt_cos_of_nonneg_of_le_pi
    · positivity
    · have h1 : 2 * π / 365.242 * (11 + 0.001) = π * (22.002 / 365.242) := by
        ring
      rw [h1]
      linarith
    · have h2 : 2 * π / 365.242 * (11 + 0.001) - 2 * π / 365.242 * 11 =
          π * (0.002 / 365.242) := by
        ring
      linarith
  linarith

/-- C1 counterexample: at the month starting at day number 11 (January 1,
eleven days after the December solstice) and the southern latitude
`-37.81`, the slope sign computed by `main` of `analemmatic.py` (from the
unnegated declination) is `+1`, while the sign computed from the negated
declination, as the claim describes, would be `-1`. -/
theorem month_start_slope_not_from_negated :
    ((-37.81 : ℝ) < 0) ∧
    (date_scale_entry (-37.81) 11).1 ≠ month_start_slope_negated 11 := by
  have hmono := sun_declination_11_strict_mono
  refine ⟨by norm_num, ?_⟩
  unfold date_scale_entry month_start_slope_negated
  dsimp only
  rw [if_pos hmono.le, if_neg (not_le.mpr (neg_lt_neg hmono))]
  decide

/-- C1 amended: for southern-hemisphere locations the declination is
negated only before the y computation `tan(declination)*cos(latitude)`;
the slope sign is computed from the unnegated declination values (the
same comparison as in the northern hemisphere). -/
theorem date_scale_slope_unnegated_y_negated (latitude day_number : ℝ)
    (h : latitude < 0) :
    (date_scale_entry latitude day_number).1 = month_start_slope day_number ∧
    (date_scale_entry latitude day_number).2 =
      Real.tan (-sun_declination day_number) * Real.cos (deg2rad latitude) := by
  unfold date_scale_entry month_start_slope
  dsimp only
  rw [if_pos h]
  exact ⟨rfl, rfl⟩

theorem date_scale_slope_unnegated_y_negated_witness :
    ((-37.81 : ℝ) < 0) ∧
    ((date_scale_entry (-37.81) 11).1 = month_start_slope 11 ∧
      (date_scale_entry (-37.81) 11).2 =
        Real.tan (-sun_declination 11) * Real.cos (deg2rad (-37.81))) :=
  ⟨by norm_num, date_scale_slope_unnegated_y_negated (-37.81) 11 (by norm_num)⟩

end Analemmatic

/-! ### Claim C10: the two copies of the equatorial hour angle agree -/

/-- C10: `equatorial_hour_angle` in `horiz.py` and in `analemmatic.py` are
extensionally equal, and both compute
`(hour - timezone) * 2π/24 + deg2rad(longitude)`. -/
theorem equatorial_hour_angle_defs_agree (hour : ℝ) (location : Location) :
    Horiz.equatorial_hour_angle hour location =
      Analemmatic.equatorial_hour_angle hour location ∧
    Horiz.equatorial_hour_angle hour location =
      (hour - location.timezone) * (2 * π / 24) + deg2rad location.longitude := by
  refine ⟨rfl, ?_⟩
  unfold Horiz.equatorial_hour_angle
  ring

end Sundials
